import Mathlib

/-!
Shallow embedding of the Story-Priority-App core pipeline
(src/priority.py; src/priority_2.py is a near-duplicate with identical
core logic at shifted line numbers).

The embedded pieces are:
  * the parsing loop over the model output (priority.py lines 141-149),
  * the session-state store and the apply/comment gating condition
    (lines 153-162),
  * the priority mapper and catalog search (lines 166-178),
  * the tracker-mutation click handlers with their try/except blocks
    (lines 163-190),
  * the prompt template and its slot substitution (lines 10-36 and
    124-137).

Python string primitives used by the source (`splitlines`, `strip`,
`split(sep, 1)`, `"\n".join`, `in` substring tests, `capitalize`,
`lower`) are modelled on `List Char`.  `splitlines` is modelled for the
newline character only (the only line separator relevant to the
template and the claims), and `lower`/`capitalize` use `Char.toLower` /
`Char.toUpper`, which agree with Python on ASCII.
-/

namespace StoryPriority

/-- Python whitespace characters stripped by `str.strip()` (ASCII part). -/
def pyWhitespaceChar (c : Char) : Bool :=
  c = ' ' || c = '\t' || c = '\n' || c = '\r' || c = '\x0b' || c = '\x0c'

/-- Python `str.strip()`: drop whitespace from both ends. -/
def stripList (l : List Char) : List Char :=
  ((l.dropWhile pyWhitespaceChar).reverse.dropWhile pyWhitespaceChar).reverse

/-- `startsWithList pat l` holds when `pat` is a prefix of `l`. -/
def startsWithList : List Char → List Char → Bool
  | [], _ => true
  | _ :: _, [] => false
  | p :: ps, c :: cs => p == c && startsWithList ps cs

/-- Python substring containment `pat in l`. -/
def containsList (pat : List Char) : List Char → Bool
  | [] => startsWithList pat []
  | c :: cs => startsWithList pat (c :: cs) || containsList pat cs

/-- Python `line.split(pat, 1)[-1]` for a nonempty `pat`: everything after
the first occurrence of `pat`, or the whole line when `pat` is absent. -/
def afterFirst (pat : List Char) : List Char → List Char
  | [] => []
  | c :: cs =>
      if startsWithList pat (c :: cs) then (c :: cs).drop pat.length
      else afterFirst pat cs

/-- Split a character list on the newline character (keeping a trailing
empty segment, as `List.splitOn` would). -/
def splitNl : List Char → List (List Char)
  | [] => [[]]
  | c :: cs =>
      if c = '\n' then [] :: splitNl cs
      else
        match splitNl cs with
        | [] => [[c]]
        | l :: ls => (c :: l) :: ls

/-- Python `str.splitlines()` restricted to the newline separator:
the empty string gives no lines, and a trailing newline does not
produce a trailing empty line. -/
def pySplitlines (s : String) : List (List Char) :=
  if s.data = [] then []
  else if s.data.getLast? = some '\n' then (splitNl s.data).dropLast
  else splitNl s.data

/-- Python `"\n".join(lines)`. -/
def joinNl (ls : List (List Char)) : List Char :=
  List.intercalate ['\n'] ls

/-- Python `str.lower()` (ASCII). -/
def lowerStr (s : String) : String :=
  String.mk (s.data.map Char.toLower)

/-- Python `str.capitalize()`: first character uppercased, the rest
lowercased; no trimming (ASCII). -/
def pyCapitalize (s : String) : String :=
  match s.data with
  | [] => ""
  | c :: cs => String.mk (c.toUpper :: cs.map Char.toLower)

/-- Python `str.strip()` on strings. -/
def pyStripStr (s : String) : String :=
  String.mk (stripList s.data)

/-- Helper for `pyTitle`: the Bool records whether the previous character
was alphabetic. -/
def pyTitleAux : Bool → List Char → List Char
  | _, [] => []
  | prev, c :: cs =>
      (if c.isAlpha then (if prev then c.toLower else c.toUpper) else c)
        :: pyTitleAux c.isAlpha cs

/-- Python `str.title()` (ASCII): uppercase every alphabetic character
that follows a non-alphabetic one, lowercase the others. -/
def pyTitle (s : String) : String :=
  String.mk (pyTitleAux false s.data)

/-! ## Recommendation parsing (priority.py lines 141-149) -/

/-- The literal priority marker searched for by the parsing loop. -/
def prioMarker : List Char := "**Priority Recommendation:**".data

/-- The literal rationale marker searched for by the parsing loop. -/
def ratMarker : List Char := "**Rationale:**".data

/-- The parsing loop of priority.py lines 145-149, carried out over the
list of lines.  At each line both `if`s of the Python loop run: a line
containing the priority marker overwrites `priority` with the stripped
text after the first occurrence of the marker on that line, and a line
containing the rationale marker overwrites `rationale` with the
stripped newline-join of all remaining lines. -/
def parseAux : (List Char × List Char) → List (List Char) → (List Char × List Char)
  | pr, [] => pr
  | pr, line :: rest =>
      let p := if containsList prioMarker line
               then stripList (afterFirst prioMarker line) else pr.1
      let r := if containsList ratMarker line
               then stripList (joinNl rest) else pr.2
      parseAux (p, r) rest

/-- The structured result of an assessment: both fields are always
present as strings, defaulting to empty. -/
structure AssessmentResult where
  priority_label : String
  rationale : String
deriving DecidableEq, Repr

/-- The full output parser of priority.py lines 141-149:
`lines = priority_output.splitlines()`, then the marker loop starting
from `priority = ""` and `rationale = ""`. -/
def parseOutput (priority_output : String) : AssessmentResult :=
  let lines := pySplitlines priority_output
  let pr := parseAux ([], []) lines
  { priority_label := String.mk pr.1, rationale := String.mk pr.2 }

/-- First element of a list satisfying `pred`, paired with the list of
elements strictly after it. -/
def firstHit {α : Type} (pred : α → Bool) : List α → Option (α × List α)
  | [] => none
  | l :: rest => if pred l then some (l, rest) else firstHit pred rest

/-- Last element of a list satisfying `pred`, paired with the list of
elements strictly after it. -/
def lastHit {α : Type} (pred : α → Bool) : List α → Option (α × List α)
  | [] => none
  | l :: rest =>
      match lastHit pred rest with
      | some x => some x
      | none => if pred l then some (l, rest) else none

/-- Parser written from the claim's words (FIRST occurrence of each
marker honoured): priority from the first line containing the priority
marker, rationale from the lines strictly after the first line
containing the rationale marker. -/
def parseOutputFirstSpec (s : String) : AssessmentResult :=
  let lines := pySplitlines s
  { priority_label :=
      match firstHit (containsList prioMarker) lines with
      | none => ""
      | some (l, _) => String.mk (stripList (afterFirst prioMarker l)),
    rationale :=
      match firstHit (containsList ratMarker) lines with
      | none => ""
      | some (_, rest) => String.mk (stripList (joinNl rest)) }

/-- Parser specification with the LAST occurrence of each marker
honoured: priority from the last line containing the priority marker,
rationale from the lines strictly after the last line containing the
rationale marker. -/
def parseOutputLastSpec (s : String) : AssessmentResult :=
  let lines := pySplitlines s
  { priority_label :=
      match lastHit (containsList prioMarker) lines with
      | none => ""
      | some (l, _) => String.mk (stripList (afterFirst prioMarker l)),
    rationale :=
      match lastHit (containsList ratMarker) lines with
      | none => ""
      | some (_, rest) => String.mk (stripList (joinNl rest)) }

/-! ## Assessment service (priority.py lines 124-149) -/

/-- The model invocation step (priority.py lines 128-149).  The outcome
of `chain.run` is passed in as an `Except`: `ok` carries the raw model
output, `error` carries the exception text.  On error the code shows
`st.error(f"OpenAI Error: {e}")` and continues with
`priority_output = ""`; the parser then runs on the chosen output.  The
function is total: no exception escapes. -/
def assess (modelResult : Except String String) : AssessmentResult × Option String :=
  match modelResult with
  | Except.ok priority_output => (parseOutput priority_output, none)
  | Except.error e => (parseOutput "", some ("OpenAI Error: " ++ e))

/-! ## Priority mapper and catalog search (priority.py lines 166-178) -/

/-- A tracker priority catalog entry as returned by `jira.priorities()`. -/
structure PriorityCatalogEntry where
  id : String
  name : String
deriving DecidableEq, Repr

/-- The fixed table of priority.py line 167. -/
def prio_map : List (String × String) :=
  [("High", "High"), ("Medium", "Medium"), ("Low", "Low")]

/-- priority.py line 168: `prio_map.get(rec.capitalize(), "Medium")`. -/
def resolvePriorityName (rec : String) : String :=
  (prio_map.lookup (pyCapitalize rec)).getD "Medium"

/-- Normalization written from the claim's words (trim the label, then
title-case it) for comparison with `resolvePriorityName`. -/
def resolvePriorityNameClaimSpec (label : String) : String :=
  (prio_map.lookup (pyTitle (pyStripStr label))).getD "Medium"

/-- The catalog search of priority.py lines 171-174: start from
`prio_id = None` and assign `prio_id = p.id` for every entry whose
lowercased name equals the lowercased resolved name (no break, so a
later match overwrites an earlier one). -/
def findPriorityId (priority_name : String) (all_prios : List PriorityCatalogEntry) :
    Option String :=
  all_prios.foldl
    (fun prio_id p =>
      if lowerStr p.name == lowerStr priority_name then some p.id else prio_id)
    none

/-! ## Session state, gating and the click handlers
(priority.py lines 153-190) -/

/-- The session-state keys the pipeline reads and writes; each is
`Option` because `st.session_state.get` yields `None` for a missing
key. -/
structure SessionState where
  last_priority_recommendation : Option String
  last_priority_rationale : Option String
  last_selected_issue_key : Option String
deriving DecidableEq, Repr

/-- Python truthiness of `st.session_state.get(k)`: `None` and the empty
string are falsy. -/
def truthy : Option String → Bool
  | none => false
  | some s => !(s == "")

/-- The gating condition of priority.py lines 159-162: the update and
comment buttons are rendered only when the stored recommendation is
truthy and the stored issue key equals the currently selected issue's
key. -/
def actionsOffered (st : SessionState) (selected_issue_key : String) : Bool :=
  truthy st.last_priority_recommendation
    && (st.last_selected_issue_key == some selected_issue_key)

/-- The store of priority.py lines 154-156, run when an assessment
completes: all three keys are overwritten. -/
def storeAssessment (selected_issue_key : String) (r : AssessmentResult) : SessionState :=
  { last_priority_recommendation := some r.priority_label,
    last_priority_rationale := some r.rationale,
    last_selected_issue_key := some selected_issue_key }

/-- A user-visible message produced by a click handler
(`st.success` / `st.error` / `st.warning`). -/
inductive Msg where
  | successMsg (s : String)
  | errorMsg (s : String)
  | warningMsg (s : String)
deriving DecidableEq, Repr

/-- A tracker mutation actually issued to the Jira gateway. -/
inductive TrackerCall where
  | updatePriority (issue_key : String) (prio_id : String)
  | addComment (issue_key : String) (text : String)
deriving DecidableEq, Repr

/-- The issue key a tracker mutation acts on. -/
def TrackerCall.issueKeyOf : TrackerCall → String
  | TrackerCall.updatePriority k _ => k
  | TrackerCall.addComment k _ => k

/-- The update-priority click handler (priority.py lines 163-181).
`catalog` is the result of `jira.priorities()`, `trackerResult` the
outcome of the `jira.issue(...).update(...)` call (`error` models a
raised exception caught by the `except` block).  Returns the resulting
session state, the message shown, and the tracker mutation issued (if
any). -/
def updatePriorityClick (st : SessionState) (selected_issue_key : String)
    (catalog : List PriorityCatalogEntry) (trackerResult : Except String Unit) :
    SessionState × Msg × Option TrackerCall :=
  let priority_name := resolvePriorityName (st.last_priority_recommendation.getD "")
  match findPriorityId priority_name catalog with
  | none =>
      (st, Msg.warningMsg
        "Could not map recommended priority to Jira priority field. Please set manually in Jira.",
       none)
  | some prio_id =>
      match trackerResult with
      | Except.ok _ =>
          (st, Msg.successMsg
            ("Issue " ++ selected_issue_key ++ " updated to priority: " ++ priority_name),
           some (TrackerCall.updatePriority selected_issue_key prio_id))
      | Except.error e =>
          (st, Msg.errorMsg ("Failed to update Jira issue priority: " ++ e),
           some (TrackerCall.updatePriority selected_issue_key prio_id))

/-- The add-comment click handler (priority.py lines 184-190). -/
def addCommentClick (st : SessionState) (selected_issue_key : String)
    (trackerResult : Except String Unit) :
    SessionState × Msg × Option TrackerCall :=
  let comment := "AI Priority Recommendation: **"
      ++ st.last_priority_recommendation.getD "" ++ "**\n\nRationale:\n"
      ++ st.last_priority_rationale.getD ""
  match trackerResult with
  | Except.ok _ =>
      (st, Msg.successMsg "Comment added to Jira ticket!",
       some (TrackerCall.addComment selected_issue_key comment))
  | Except.error e =>
      (st, Msg.errorMsg ("Failed to add comment: " ++ e),
       some (TrackerCall.addComment selected_issue_key comment))

end StoryPriority

namespace StoryPriority

/-! ## Prompt template and rendering (priority.py lines 10-36, 124-137) -/

/-- The seven free-text inputs handed to `chain.run` (priority.py lines
129-137): the selected issue's combined summary/description plus the
six context form fields. -/
structure AssessmentInput where
  user_story : String
  business_value : String
  deadline : String
  dependencies : String
  risk : String
  effort : String
  other_context : String
deriving DecidableEq, Repr

/-- The literal PRIORITY_PROMPT template of priority.py lines 10-36
(braces written with their escape codes). -/
def PRIORITY_PROMPT : String :=
  "\nYou are a software project manager assistant. Given a user story or task and its context, evaluate its urgency and impact to recommend a **priority** (High, Medium, Low) for the team.\n\nAssess using:\n- Business value or customer impact\n- Deadlines or time sensitivity\n- Dependencies on or by other work\n- Risk of delay or failure\n- Effort or complexity\n- Alignment with strategic goals\n\nReturn:\n---\n**Priority Recommendation:** <High/Medium/Low>\n\n**Rationale:**  \n<1-2 lines explaining your reasoning, referencing the input factors.>\n---\n\nUser Story/Task: \x7buser_story\x7d\nBusiness Value/Impact: \x7bbusiness_value\x7d\nDeadline/Time Sensitivity: \x7bdeadline\x7d\nDependencies: \x7bdependencies\x7d\nRisk: \x7brisk\x7d\nEffort/Complexity: \x7beffort\x7d\nOther Context: \x7bother_context\x7d\n"

/-- Single-pass slot substitution as performed by
`PromptTemplate.from_template(...)` / `chain.run(...)` on an f-string
style template (priority.py lines 124-137): outside braces characters
are copied; an opening brace starts collecting a key until the closing
brace, at which point the key's value is spliced in.  (The template
contains no escaped double braces, so those need not be modelled.) -/
def pyFormatScan (m : String → String) : Option (List Char) → List Char → List Char
  | none, [] => []
  | none, c :: rest =>
      if c = '\x7b' then pyFormatScan m (some []) rest
      else c :: pyFormatScan m none rest
  | some _, [] => []
  | some key, c :: rest =>
      if c = '\x7d' then (m (String.mk key)).data ++ pyFormatScan m none rest
      else pyFormatScan m (some (key ++ [c])) rest

/-- Format a template string with the values supplied by `m`. -/
def pyFormat (template : String) (m : String → String) : String :=
  String.mk (pyFormatScan m none template.data)

/-- The slot-name-to-value map passed to `chain.run` (priority.py
lines 129-137). -/
def promptInputs (i : AssessmentInput) (k : String) : String :=
  match k with
  | "user_story" => i.user_story
  | "business_value" => i.business_value
  | "deadline" => i.deadline
  | "dependencies" => i.dependencies
  | "risk" => i.risk
  | "effort" => i.effort
  | "other_context" => i.other_context
  | _ => ""

/-- The rendered prompt for a given assessment input. -/
def renderPrompt (i : AssessmentInput) : String :=
  pyFormat PRIORITY_PROMPT (promptInputs i)

/-- A template token: a literal run of text or a named slot. -/
inductive Tok where
  | lit (s : String)
  | slot (name : String)

/-- Flatten tokens back into template text (slots written in braces). -/
def flatToks : List Tok → List Char
  | [] => []
  | Tok.lit s :: ts => s.data ++ flatToks ts
  | Tok.slot n :: ts => '\x7b' :: (n.data ++ '\x7d' :: flatToks ts)

/-- Render tokens, substituting slot values from `m`. -/
def renderToks (m : String → String) : List Tok → List Char
  | [] => []
  | Tok.lit s :: ts => s.data ++ renderToks m ts
  | Tok.slot n :: ts => (m n).data ++ renderToks m ts

/-- A character that is not a brace. -/
def braceFreeCh (c : Char) : Bool := !(c = '\x7b' || c = '\x7d')

/-- A well-formed token contains no brace characters. -/
def tokWF : Tok → Bool
  | Tok.lit s => s.data.all braceFreeCh
  | Tok.slot n => n.data.all braceFreeCh

/-- The literal template text before the `user_story` slot. -/
def PROMPT_SEG0 : String :=
  "\nYou are a software project manager assistant. Given a user story or task and its context, evaluate its urgency and impact to recommend a **priority** (High, Medium, Low) for the team.\n\nAssess using:\n- Business value or customer impact\n- Deadlines or time sensitivity\n- Dependencies on or by other work\n- Risk of delay or failure\n- Effort or complexity\n- Alignment with strategic goals\n\nReturn:\n---\n**Priority Recommendation:** <High/Medium/Low>\n\n**Rationale:**  \n<1-2 lines explaining your reasoning, referencing the input factors.>\n---\n\nUser Story/Task: "

/-- The literal template text between the `user_story` and
`business_value` slots. -/
def PROMPT_SEG1 : String := "\nBusiness Value/Impact: "

/-- The literal template text between the `business_value` and
`deadline` slots. -/
def PROMPT_SEG2 : String := "\nDeadline/Time Sensitivity: "

/-- The literal template text between the `deadline` and
`dependencies` slots. -/
def PROMPT_SEG3 : String := "\nDependencies: "

/-- The literal template text between the `dependencies` and `risk`
slots. -/
def PROMPT_SEG4 : String := "\nRisk: "

/-- The literal template text between the `risk` and `effort` slots. -/
def PROMPT_SEG5 : String := "\nEffort/Complexity: "

/-- The literal template text between the `effort` and `other_context`
slots. -/
def PROMPT_SEG6 : String := "\nOther Context: "

/-- The literal template text after the `other_context` slot. -/
def PROMPT_SEG7 : String := "\n"

/-- The token decomposition of PRIORITY_PROMPT: seven named slots, each
appearing exactly once, separated by the literal segments. -/
def promptToks : List Tok :=
  [Tok.lit PROMPT_SEG0, Tok.slot "user_story",
   Tok.lit PROMPT_SEG1, Tok.slot "business_value",
   Tok.lit PROMPT_SEG2, Tok.slot "deadline",
   Tok.lit PROMPT_SEG3, Tok.slot "dependencies",
   Tok.lit PROMPT_SEG4, Tok.slot "risk",
   Tok.lit PROMPT_SEG5, Tok.slot "effort",
   Tok.lit PROMPT_SEG6, Tok.slot "other_context",
   Tok.lit PROMPT_SEG7]

/-- Count the occurrences of `pat` at every position of a character
list. -/
def countSub (pat : List Char) : List Char → Nat
  | [] => 0
  | c :: cs => (if startsWithList pat (c :: cs) then 1 else 0) + countSub pat cs

end StoryPriority

namespace StoryPriority

/-! ## Parser lemmas -/

theorem parseAux_eq (lines : List (List Char)) (pr : List Char × List Char) :
    parseAux pr lines =
      ((match lastHit (containsList prioMarker) lines with
        | none => pr.1
        | some (l, _) => stripList (afterFirst prioMarker l)),
       (match lastHit (containsList ratMarker) lines with
        | none => pr.2
        | some (_, rest) => stripList (joinNl rest))) := by
  induction lines generalizing pr with
  | nil => simp [parseAux, lastHit]
  | cons line rest ih =>
      rw [parseAux, ih]
      simp only [lastHit]
      cases hp : lastHit (containsList prioMarker) rest with
      | none =>
          cases hr : lastHit (containsList ratMarker) rest with
          | none =>
              by_cases hc1 : containsList prioMarker line <;>
                by_cases hc2 : containsList ratMarker line <;>
                  simp [hc1, hc2]
          | some x =>
              by_cases hc1 : containsList prioMarker line <;> simp [hc1]
      | some x =>
          cases hr : lastHit (containsList ratMarker) rest with
          | none =>
              by_cases hc2 : containsList ratMarker line <;> simp [hc2]
          | some y => simp

end StoryPriority

namespace StoryPriority

/-- C2 counterexample: on an output repeating the priority marker on two
lines the code keeps the LAST occurrence ("Low"), while the claim's
first-occurrence parser yields "High". -/
theorem parse_first_marker_counterexample :
    parseOutput "**Priority Recommendation:** High\n**Priority Recommendation:** Low"
      = { priority_label := "Low", rationale := "" } ∧
    parseOutputFirstSpec "**Priority Recommendation:** High\n**Priority Recommendation:** Low"
      = { priority_label := "High", rationale := "" } := by
  constructor <;> rfl

/-- C2 (amended): for every raw model output the parser takes
priority_label from the LAST line containing the priority marker
(text after the marker, stripped) and the rationale from the lines
strictly after the LAST line containing the rationale marker (joined
with newlines, stripped); a missing marker leaves the field empty. -/
theorem parse_last_marker_occurrence (s : String) :
    parseOutput s = parseOutputLastSpec s := by
  show ({ priority_label := String.mk (parseAux ([], []) (pySplitlines s)).1,
          rationale := String.mk (parseAux ([], []) (pySplitlines s)).2 }
        : AssessmentResult)
      = { priority_label :=
            match lastHit (containsList prioMarker) (pySplitlines s) with
            | none => ""
            | some (l, _) => String.mk (stripList (afterFirst prioMarker l)),
          rationale :=
            match lastHit (containsList ratMarker) (pySplitlines s) with
            | none => ""
            | some (_, rest) => String.mk (stripList (joinNl rest)) }
  rw [parseAux_eq]
  cases lastHit (containsList prioMarker) (pySplitlines s) with
  | none =>
      cases lastHit (containsList ratMarker) (pySplitlines s) with
      | none => rfl
      | some y => cases y; rfl
  | some x =>
      cases x
      cases lastHit (containsList ratMarker) (pySplitlines s) with
      | none => rfl
      | some y => cases y; rfl

/-- C7: parsing the concrete two-marker example yields priority "High"
and rationale "Good ROI.". -/
theorem parse_concrete_example :
    parseOutput "**Priority Recommendation:** High\n**Rationale:**\nGood ROI."
      = { priority_label := "High", rationale := "Good ROI." } := by
  rfl

/-- C3: when the model invocation raises (priority.py lines 138-140),
the assessment yields both fields empty and surfaces the
"OpenAI Error" message; `assess` is a total function, so no raw
exception escapes. -/
theorem assess_model_failure_empty_result (e : String) :
    assess (Except.error e)
      = ({ priority_label := "", rationale := "" }, some ("OpenAI Error: " ++ e)) := by
  rfl

/-- C5 counterexample: the claim's trim-then-title-case normalization
maps the label " high" to the key "High", but the code's
`str.capitalize` (no trim) misses the table and defaults to "Medium". -/
theorem mapper_trim_titlecase_counterexample :
    resolvePriorityName " high" = "Medium" ∧
    resolvePriorityNameClaimSpec " high" = "High" := by
  constructor <;> rfl

/-- C5 (amended): the mapper normalizes with Python `str.capitalize`
(first character uppercased, rest lowercased, no trimming) and looks
the result up in the fixed table; any label whose capitalization is not
exactly a key resolves to the default "Medium"; in particular
"urgent!!!" resolves to "Medium". -/
theorem mapper_capitalize_normalization (label : String) :
    resolvePriorityName label =
      (if pyCapitalize label = "High" ∨ pyCapitalize label = "Medium"
          ∨ pyCapitalize label = "Low"
       then pyCapitalize label else "Medium") ∧
    resolvePriorityName "urgent!!!" = "Medium" := by
  refine ⟨?_, by rfl⟩
  unfold resolvePriorityName prio_map
  by_cases h1 : pyCapitalize label = "High"
  · simp [List.lookup, beq_iff_eq.mpr h1, h1]
  · by_cases h2 : pyCapitalize label = "Medium"
    · simp [List.lookup, beq_eq_false_iff_ne.mpr h1, beq_iff_eq.mpr h2, h1, h2]
    · by_cases h3 : pyCapitalize label = "Low"
      · simp [List.lookup, beq_eq_false_iff_ne.mpr h1, beq_eq_false_iff_ne.mpr h2,
              beq_iff_eq.mpr h3, h1, h2, h3]
      · simp [List.lookup, beq_eq_false_iff_ne.mpr h1, beq_eq_false_iff_ne.mpr h2,
              beq_eq_false_iff_ne.mpr h3, h1, h2, h3]

theorem findPriorityId_foldl (priority_name : String)
    (l : List PriorityCatalogEntry) (acc : Option String) :
    l.foldl
        (fun prio_id p =>
          if lowerStr p.name == lowerStr priority_name then some p.id else prio_id)
        acc
      = (match (l.filter fun p => lowerStr p.name == lowerStr priority_name).getLast? with
         | some q => some q.id
         | none => acc) := by
  induction l generalizing acc with
  | nil => simp
  | cons p l ih =>
      rw [List.foldl_cons, ih, List.filter_cons]
      by_cases hc : (lowerStr p.name == lowerStr priority_name) = true
      · simp only [if_pos hc]
        cases hfl : (l.filter fun q => lowerStr q.name == lowerStr priority_name) with
        | nil => simp [hfl]
        | cons q qs =>
            rw [List.getLast?_cons_cons]
            cases hgl : (q :: qs).getLast? with
            | none => simp at hgl
            | some q2 => rfl
      · simp only [if_neg hc]

/-- C10: the catalog search assigns on every case-insensitive name
match without breaking, so the resulting id is that of the LAST
matching entry in catalog order; e.g. with two case-insensitive
matches for "High" the second entry's id wins. -/
theorem priority_search_last_match (priority_name : String)
    (catalog : List PriorityCatalogEntry) :
    findPriorityId priority_name catalog
      = ((catalog.filter fun p =>
            lowerStr p.name == lowerStr priority_name).getLast?).map
          PriorityCatalogEntry.id ∧
    findPriorityId "High"
        [PriorityCatalogEntry.mk "1" "High", PriorityCatalogEntry.mk "2" "HIGH"]
      = some "2" := by
  refine ⟨?_, by rfl⟩
  rw [findPriorityId, findPriorityId_foldl]
  cases (catalog.filter fun p => lowerStr p.name == lowerStr priority_name).getLast? <;>
    simp

/-- C9: an assessment that stores an empty priority_label (absent
marker or failed model call) disables both actions, whatever the
rationale and even for the same selected issue, because the gate
requires a truthy stored recommendation. -/
theorem empty_recommendation_gates_actions
    (rationale selected_issue_key original_key : String) :
    actionsOffered
        (storeAssessment original_key { priority_label := "", rationale := rationale })
        selected_issue_key
      = false := by
  simp [actionsOffered, storeAssessment, truthy]

end StoryPriority

namespace StoryPriority

/-- C1: the correlation invariant of priority.py lines 159-162.  When
the stored correlation key differs from the currently selected issue's
key, the gate hides both actions; and whenever the gate is open, the
stored key equals the selected key, so every tracker mutation issued by
the click handlers (which act on the selected issue's key) uses an
issue key equal to the stored correlation key. -/
theorem correlation_invariant (st : SessionState) (selected_issue_key : String)
    (catalog : List PriorityCatalogEntry) (tr tr2 : Except String Unit) :
    (st.last_selected_issue_key ≠ some selected_issue_key →
      actionsOffered st selected_issue_key = false) ∧
    (actionsOffered st selected_issue_key = true →
      st.last_selected_issue_key = some selected_issue_key ∧
      (∀ c, (updatePriorityClick st selected_issue_key catalog tr).2.2 = some c →
        TrackerCall.issueKeyOf c = selected_issue_key) ∧
      (∀ c, (addCommentClick st selected_issue_key tr2).2.2 = some c →
        TrackerCall.issueKeyOf c = selected_issue_key)) := by
  constructor
  · intro hne
    unfold actionsOffered
    rw [beq_eq_false_iff_ne.mpr hne]
    simp
  · intro hoff
    unfold actionsOffered at hoff
    rw [Bool.and_eq_true] at hoff
    refine ⟨beq_iff_eq.mp hoff.2, ?_, ?_⟩
    · intro c hc
      simp only [updatePriorityClick] at hc
      cases hfind : findPriorityId
          (resolvePriorityName (st.last_priority_recommendation.getD "")) catalog with
      | none => rw [hfind] at hc; simp at hc
      | some pid =>
          rw [hfind] at hc
          cases tr with
          | ok u =>
              simp at hc
              rw [← hc]
              rfl
          | error e =>
              simp at hc
              rw [← hc]
              rfl
    · intro c hc
      simp only [addCommentClick] at hc
      cases tr2 with
      | ok u =>
          simp at hc
          rw [← hc]
          rfl
      | error e =>
          simp at hc
          rw [← hc]
          rfl

/-- Witness for C1: with a recommendation stored for issue "ISSUE-A",
selecting "ISSUE-B" leaves both actions unoffered. -/
theorem correlation_invariant_witness :
    actionsOffered
        (SessionState.mk (some "High") (some "because") (some "ISSUE-A")) "ISSUE-B"
      = false :=
  (correlation_invariant
      (SessionState.mk (some "High") (some "because") (some "ISSUE-A"))
      "ISSUE-B" [] (Except.ok ()) (Except.ok ())).1 (by decide)

/-- C4: when no catalog entry's name case-insensitively equals the
resolved priority name, the lookup yields `none`, the user gets the
"Could not map" warning, and no tracker update is issued. -/
theorem unmatched_priority_not_found (st : SessionState) (selected_issue_key : String)
    (catalog : List PriorityCatalogEntry) (trackerResult : Except String Unit)
    (h : ∀ p ∈ catalog,
      lowerStr p.name
        ≠ lowerStr (resolvePriorityName (st.last_priority_recommendation.getD ""))) :
    findPriorityId (resolvePriorityName (st.last_priority_recommendation.getD ""))
        catalog = none ∧
    (updatePriorityClick st selected_issue_key catalog trackerResult).2.1
      = Msg.warningMsg
          "Could not map recommended priority to Jira priority field. Please set manually in Jira." ∧
    (updatePriorityClick st selected_issue_key catalog trackerResult).2.2 = none := by
  have hnone : findPriorityId
      (resolvePriorityName (st.last_priority_recommendation.getD "")) catalog = none := by
    rw [findPriorityId, findPriorityId_foldl]
    have hfil : catalog.filter (fun p =>
        lowerStr p.name
          == lowerStr (resolvePriorityName (st.last_priority_recommendation.getD "")))
        = [] :=
      List.filter_eq_nil_iff.mpr (fun p hp => by simpa using h p hp)
    rw [hfil]
    rfl
  refine ⟨hnone, ?_, ?_⟩ <;> simp only [updatePriorityClick, hnone]

/-- Witness for C4: mapping "High" against the empty catalog yields
`none` and the warning, with no tracker update. -/
theorem unmatched_priority_not_found_witness :
    (∀ p ∈ ([] : List PriorityCatalogEntry),
      lowerStr p.name
        ≠ lowerStr (resolvePriorityName
            ((SessionState.mk (some "High") (some "because")
              (some "ISSUE-A")).last_priority_recommendation.getD ""))) ∧
    (findPriorityId
        (resolvePriorityName
          ((SessionState.mk (some "High") (some "because")
            (some "ISSUE-A")).last_priority_recommendation.getD "")) [] = none ∧
      (updatePriorityClick
          (SessionState.mk (some "High") (some "because") (some "ISSUE-A"))
          "ISSUE-A" [] (Except.ok ())).2.1
        = Msg.warningMsg
            "Could not map recommended priority to Jira priority field. Please set manually in Jira." ∧
      (updatePriorityClick
          (SessionState.mk (some "High") (some "because") (some "ISSUE-A"))
          "ISSUE-A" [] (Except.ok ())).2.2 = none) :=
  ⟨by simp, unmatched_priority_not_found
      (SessionState.mk (some "High") (some "because") (some "ISSUE-A"))
      "ISSUE-A" [] (Except.ok ()) (by simp)⟩

/-- C8: a failing tracker mutation (modelled by `Except.error`) leaves
the session state — and hence the stored recommendation, rationale and
correlation key — unchanged, reports an error message, and never shows
a success message; the recommendation therefore remains available for
retry. -/
theorem tracker_mutation_failure_reporting (st : SessionState)
    (selected_issue_key : String) (catalog : List PriorityCatalogEntry) (e : String) :
    ((updatePriorityClick st selected_issue_key catalog (Except.error e)).1 = st) ∧
    ((updatePriorityClick st selected_issue_key catalog (Except.error e)).2.2.isSome
        = true →
      (updatePriorityClick st selected_issue_key catalog (Except.error e)).2.1
        = Msg.errorMsg ("Failed to update Jira issue priority: " ++ e)) ∧
    (∀ m, (updatePriorityClick st selected_issue_key catalog (Except.error e)).2.1
        ≠ Msg.successMsg m) ∧
    ((addCommentClick st selected_issue_key (Except.error e)).1 = st) ∧
    ((addCommentClick st selected_issue_key (Except.error e)).2.1
      = Msg.errorMsg ("Failed to add comment: " ++ e)) ∧
    (∀ m, (addCommentClick st selected_issue_key (Except.error e)).2.1
        ≠ Msg.successMsg m) := by
  cases hfind : findPriorityId
      (resolvePriorityName (st.last_priority_recommendation.getD "")) catalog with
  | none => simp [updatePriorityClick, addCommentClick, hfind]
  | some pid => simp [updatePriorityClick, addCommentClick, hfind]

/-- Witness for C8: a concrete failing update against a catalog that
does contain the resolved priority reports the error message, and the
failing comment call leaves the state unchanged. -/
theorem tracker_mutation_failure_reporting_witness :
    (updatePriorityClick
        (SessionState.mk (some "High") (some "because") (some "ISSUE-A"))
        "ISSUE-A" [PriorityCatalogEntry.mk "1" "High"]
        (Except.error "boom")).2.2.isSome = true ∧
    (updatePriorityClick
        (SessionState.mk (some "High") (some "because") (some "ISSUE-A"))
        "ISSUE-A" [PriorityCatalogEntry.mk "1" "High"]
        (Except.error "boom")).2.1
      = Msg.errorMsg ("Failed to update Jira issue priority: " ++ "boom") :=
  ⟨by decide,
   (tracker_mutation_failure_reporting
      (SessionState.mk (some "High") (some "because") (some "ISSUE-A"))
      "ISSUE-A" [PriorityCatalogEntry.mk "1" "High"] "boom").2.1 (by decide)⟩

end StoryPriority

namespace StoryPriority

theorem stringDataInj {s t : String} (h : s.data = t.data) : s = t := by
  cases s
  cases t
  exact congrArg String.mk h

theorem pyFormatScan_lit (m : String → String) (l rest : List Char)
    (h : l.all braceFreeCh = true) :
    pyFormatScan m none (l ++ rest) = l ++ pyFormatScan m none rest := by
  induction l with
  | nil => rfl
  | cons c cs ih =>
      rw [List.all_cons, Bool.and_eq_true] at h
      have hc : ¬ c = '\x7b' := by
        intro hcc
        rw [hcc] at h
        simp [braceFreeCh] at h
      rw [List.cons_append, pyFormatScan, if_neg hc, ih h.2]
      rfl

theorem pyFormatScan_key (m : String → String) (key rest : List Char)
    (done : List Char) (h : key.all braceFreeCh = true) :
    pyFormatScan m (some done) (key ++ '\x7d' :: rest)
      = (m (String.mk (done ++ key))).data ++ pyFormatScan m none rest := by
  induction key generalizing done with
  | nil => simp [pyFormatScan]
  | cons c cs ih =>
      rw [List.all_cons, Bool.and_eq_true] at h
      have hc : ¬ c = '\x7d' := by
        intro hcc
        rw [hcc] at h
        simp [braceFreeCh] at h
      rw [List.cons_append, pyFormatScan, if_neg hc, ih (done ++ [c]) h.2]
      simp

theorem pyFormatScan_flat (m : String → String) (ts : List Tok)
    (h : ts.all tokWF = true) :
    pyFormatScan m none (flatToks ts) = renderToks m ts := by
  induction ts with
  | nil => rfl
  | cons t ts ih =>
      rw [List.all_cons, Bool.and_eq_true] at h
      cases t with
      | lit s =>
          rw [flatToks, renderToks, pyFormatScan_lit m _ _ h.1, ih h.2]
      | slot n =>
          rw [flatToks, renderToks]
          show pyFormatScan m (some []) (n.data ++ '\x7d' :: flatToks ts) = _
          rw [pyFormatScan_key m _ _ _ h.1, ih h.2]
          simp

set_option maxRecDepth 40000 in
theorem promptToks_flat : flatToks promptToks = PRIORITY_PROMPT.data := by rfl

set_option maxRecDepth 40000 in
/-- C6: prompt rendering is a total function of the input (hence
deterministic); for every AssessmentInput — the all-empty one included —
the rendered prompt decomposes as the template's literal segments with
each of the seven input values spliced verbatim into its named slot
position, an empty field contributing the empty string; and each of the
seven named slots occurs exactly once in the template. -/
theorem prompt_render_verbatim_slots (i : AssessmentInput) :
    renderPrompt i
      = PROMPT_SEG0 ++ i.user_story ++ PROMPT_SEG1 ++ i.business_value
        ++ PROMPT_SEG2 ++ i.deadline ++ PROMPT_SEG3 ++ i.dependencies
        ++ PROMPT_SEG4 ++ i.risk ++ PROMPT_SEG5 ++ i.effort
        ++ PROMPT_SEG6 ++ i.other_context ++ PROMPT_SEG7 ∧
    countSub "\x7buser_story\x7d".data PRIORITY_PROMPT.data = 1 ∧
    countSub "\x7bbusiness_value\x7d".data PRIORITY_PROMPT.data = 1 ∧
    countSub "\x7bdeadline\x7d".data PRIORITY_PROMPT.data = 1 ∧
    countSub "\x7bdependencies\x7d".data PRIORITY_PROMPT.data = 1 ∧
    countSub "\x7brisk\x7d".data PRIORITY_PROMPT.data = 1 ∧
    countSub "\x7beffort\x7d".data PRIORITY_PROMPT.data = 1 ∧
    countSub "\x7bother_context\x7d".data PRIORITY_PROMPT.data = 1 := by
  refine ⟨?_, by rfl, by rfl, by rfl, by rfl, by rfl, by rfl, by rfl⟩
  apply stringDataInj
  show pyFormatScan (promptInputs i) none PRIORITY_PROMPT.data = _
  rw [← promptToks_flat, pyFormatScan_flat _ _ (by rfl)]
  have h1 : promptInputs i "user_story" = i.user_story := rfl
  have h2 : promptInputs i "business_value" = i.business_value := rfl
  have h3 : promptInputs i "deadline" = i.deadline := rfl
  have h4 : promptInputs i "dependencies" = i.dependencies := rfl
  have h5 : promptInputs i "risk" = i.risk := rfl
  have h6 : promptInputs i "effort" = i.effort := rfl
  have h7 : promptInputs i "other_context" = i.other_context := rfl
  simp only [promptToks, renderToks, h1, h2, h3, h4, h5, h6, h7]
  simp [List.append_assoc]

end StoryPriority
